import Mathlib

/-!
Verification of the LNG dashboard's deterministic core (src/app.py).

The dashboard fetches market quotes (`get_market_data`), computes a
Henry-Hub → TTF arbitrage spread at module level (lines 213–219), and
analyses EIA weekly storage history (`get_eia_storage_analysis`).
Prices and storage values are modelled with exact rationals (ℚ); the
Python floats carry decimal literals that ℚ represents exactly, and all
claims are stated up to tolerances that absorb float rounding.

Fallible external I/O (yfinance fetches, EIA HTTP calls) is modelled by
explicit outcome values fed to the pure functions; a Python exception in
the embedded code becomes an explicit error branch, matching the
`try/except` structure of the source.
-/

namespace LNG

/-- Outcome of one `yf.Ticker(t).history(period="5d")` call: either the
call raised an exception, or it returned a chronologically ordered list
of closing prices (possibly empty). -/
inductive FetchOutcome where
  | exn : FetchOutcome
  | hist : List ℚ → FetchOutcome
  deriving Repr, DecidableEq

/-- One entry of the `data` dict built by `get_market_data`:
`{"price": ..., "change": ..., "valid": ...}`, with the optional
`"source": "Manual"` key of the override branch modelled as an
`Option String`. -/
structure Quote where
  price : ℚ
  change : ℚ
  valid : Bool
  src : Option String
  deriving Repr, DecidableEq

/-- The record stored on any fetch failure: `{"price": 0, "change": 0,
"valid": False}` (lines 69 and 71 of src/app.py). -/
def invalidQuote : Quote := ⟨0, 0, false, none⟩

/-- Body of the per-ticker loop of `get_market_data` (lines 61–71).
`hist['Close'].iloc[-1]` and `.iloc[-2]` need at least two rows; an
empty history takes the `else` branch, and a one-row history raises
`IndexError` inside the `try`, so both yield `invalidQuote`. -/
def fetchQuote : FetchOutcome → Quote
  | .exn => invalidQuote
  | .hist closes =>
      if h : 2 ≤ closes.length then
        let current := closes.getLast (by intro hnil; subst hnil; simp at h)
        let prev := closes.get ⟨closes.length - 2, by omega⟩
        ⟨current, current - prev, true, none⟩
      else invalidQuote

/-- A fetch outcome that produces no usable quote: an exception, or a
history with fewer than two rows. -/
def FetchOutcome.failed : FetchOutcome → Bool
  | .exn => true
  | .hist closes => closes.length < 2

/-- The four fetch outcomes of one `get_market_data` cycle, one per
ticker in `{"HH": "NG=F", "TTF": "TTF=F", "JKM": "JKM=F", "Oil": "BZ=F"}`. -/
structure FetchOutcomes where
  HH : FetchOutcome
  TTF : FetchOutcome
  JKM : FetchOutcome
  Oil : FetchOutcome
  deriving Repr, DecidableEq

/-- The dict returned by `get_market_data`: exactly the four keys
`HH`, `TTF`, `JKM`, `Oil`, each bound to a quote record. -/
structure MarketData where
  HH : Quote
  TTF : Quote
  JKM : Quote
  Oil : Quote
  deriving Repr, DecidableEq

/-- The quote substituted by the manual-TTF override (line 73):
`{"price": manual_ttf, "change": 0, "valid": True, "source": "Manual"}`. -/
def manualQuote (manual_ttf : ℚ) : Quote := ⟨manual_ttf, 0, true, some "Manual"⟩

/-- `get_market_data` (lines 57–74): builds one quote per ticker, then
replaces the TTF quote by the operator-supplied manual value when the
fetched TTF quote is invalid or priced below 1 and `manual_ttf > 0`. -/
def get_market_data (manual_ttf : ℚ) (o : FetchOutcomes) : MarketData :=
  let data : MarketData :=
    ⟨fetchQuote o.HH, fetchQuote o.TTF, fetchQuote o.JKM, fetchQuote o.Oil⟩
  if (data.TTF.valid = false ∨ data.TTF.price < 1) ∧ 0 < manual_ttf then
    { data with TTF := manualQuote manual_ttf }
  else
    data

/-- Line 215: `ttf_usd = (prices['TTF']['price'] * 1.05) / 3.412`. -/
def ttf_usd_of (raw : ℚ) : ℚ := (raw * 1.05) / 3.412

/-- The inverse of `ttf_usd_of`: multiply by 3.412, divide by 1.05. -/
def ttf_denormalize (x : ℚ) : ℚ := x * 3.412 / 1.05

/-- The module-level arbitrage computation (lines 213–219): guarded by
`prices['HH']['price'] > 0 and prices['TTF']['price'] > 0`, it computes
the spread and renders OPEN exactly when `spread > 0`.  `none` models
the guard failing, i.e. no signal rendered at all. -/
def arbSignal (freight_cost liquefaction_cost : ℚ) (prices : MarketData) :
    Option (ℚ × Bool) :=
  if 0 < prices.HH.price ∧ 0 < prices.TTF.price then
    let hh := prices.HH.price
    let ttf_usd := ttf_usd_of prices.TTF.price
    let cost := (hh * 1.15) + liquefaction_cost + freight_cost
    let spread := (ttf_usd - 1.0) - cost
    some (spread, decide (0 < spread))
  else
    none

/-- Spec §4.1: `normalized = raw_value * fx_rate / divisor` with the
source's convention `fx_rate = 1.05`, divisor `3.412` (MMBtu per MWh). -/
def spec_normalized (raw fx_rate divisor : ℚ) : ℚ := raw * fx_rate / divisor

/-- Spec §4.2 step 1:
`origin_cost = origin_price * origin_multiplier + liquefaction_cost + freight_cost`. -/
def spec_origin_cost (origin_price mult liq freight : ℚ) : ℚ :=
  origin_price * mult + liq + freight

/-- Spec §4.2 step 2: `destination_net = destination_price_normalized - sales_discount`. -/
def spec_destination_net (normalized discount : ℚ) : ℚ := normalized - discount

/-- Spec §4.2 step 3: `net_spread = destination_net - origin_cost`. -/
def spec_net_spread (destination_net origin_cost : ℚ) : ℚ :=
  destination_net - origin_cost

/-- The spec's full pipeline at the source's constants: fx 1.05,
divisor 3.412, multiplier 1.15, discount 1.0. -/
def spec_spread (hh raw liq freight : ℚ) : ℚ :=
  spec_net_spread
    (spec_destination_net (spec_normalized raw 1.05 3.412) 1.0)
    (spec_origin_cost hh 1.15 liq freight)

/-- Result record of `get_eia_storage_analysis` on success (line 96);
the `date` field of the source is a string taken verbatim from the
feed and carries no arithmetic, so it is omitted. -/
structure EiaAnalysis where
  val : ℚ
  chg : ℚ
  yoy_diff : ℚ
  yoy_pct : ℚ
  last_year_val : ℚ
  deriving Repr, DecidableEq

/-- `get_eia_storage_analysis` (lines 77–98), with the fetched history
values (newest first, as sorted descending by period) as input.
Fewer than 53 entries returns the "Not enough history" failure; a zero
prior-year value makes the Python float division raise
`ZeroDivisionError`, caught by the `except` and returned as its
message, modelled as an explicit error branch. -/
def get_eia_storage_analysis (api_key : String) (d : List ℚ) :
    Except String EiaAnalysis :=
  if api_key = "" then .error "No Key"
  else if h : d.length < 53 then .error "Not enough history"
  else
    let curr_val := d.get ⟨0, by omega⟩
    let last_year_val := d.get ⟨52, by omega⟩
    let yoy_diff := curr_val - last_year_val
    if last_year_val = 0 then .error "float division by zero"
    else
      let yoy_pct := (yoy_diff / last_year_val) * 100
      let change := d.get ⟨0, by omega⟩ - d.get ⟨1, by omega⟩
      .ok ⟨curr_val, change, yoy_diff, yoy_pct, last_year_val⟩

/-! ### Helper lemmas -/

theorem fetchQuote_of_valid_false (o : FetchOutcome)
    (h : (fetchQuote o).valid = false) : fetchQuote o = invalidQuote := by
  cases o with
  | exn => rfl
  | hist closes =>
      by_cases hl : 2 ≤ closes.length
      · simp only [fetchQuote] at h
        rw [dif_pos hl] at h
        simp at h
      · simp only [fetchQuote]
        rw [dif_neg hl]

theorem fetchQuote_of_failed (o : FetchOutcome)
    (h : o.failed = true) : fetchQuote o = invalidQuote := by
  cases o with
  | exn => rfl
  | hist closes =>
      simp only [FetchOutcome.failed, decide_eq_true_eq] at h
      simp only [fetchQuote]
      rw [dif_neg (by omega)]

theorem get_market_data_HH (manual : ℚ) (o : FetchOutcomes) :
    (get_market_data manual o).HH = fetchQuote o.HH := by
  by_cases hc : ((fetchQuote o.TTF).valid = false ∨ (fetchQuote o.TTF).price < 1) ∧
      0 < manual
  · simp only [get_market_data]
    rw [if_pos hc]
  · simp only [get_market_data]
    rw [if_neg hc]

theorem get_market_data_JKM (manual : ℚ) (o : FetchOutcomes) :
    (get_market_data manual o).JKM = fetchQuote o.JKM := by
  by_cases hc : ((fetchQuote o.TTF).valid = false ∨ (fetchQuote o.TTF).price < 1) ∧
      0 < manual
  · simp only [get_market_data]
    rw [if_pos hc]
  · simp only [get_market_data]
    rw [if_neg hc]

theorem get_market_data_Oil (manual : ℚ) (o : FetchOutcomes) :
    (get_market_data manual o).Oil = fetchQuote o.Oil := by
  by_cases hc : ((fetchQuote o.TTF).valid = false ∨ (fetchQuote o.TTF).price < 1) ∧
      0 < manual
  · simp only [get_market_data]
    rw [if_pos hc]
  · simp only [get_market_data]
    rw [if_neg hc]

theorem get_market_data_TTF (manual : ℚ) (o : FetchOutcomes) :
    (get_market_data manual o).TTF =
      if ((fetchQuote o.TTF).valid = false ∨ (fetchQuote o.TTF).price < 1) ∧
          0 < manual
      then manualQuote manual else fetchQuote o.TTF := by
  by_cases hc : ((fetchQuote o.TTF).valid = false ∨ (fetchQuote o.TTF).price < 1) ∧
      0 < manual
  · simp only [get_market_data]
    rw [if_pos hc, if_pos hc]
  · simp only [get_market_data]
    rw [if_neg hc, if_neg hc]

theorem arbSignal_of_pos (freight liq : ℚ) (m : MarketData)
    (h1 : 0 < m.HH.price) (h2 : 0 < m.TTF.price) :
    arbSignal freight liq m =
      some ((ttf_usd_of m.TTF.price - 1.0) - ((m.HH.price * 1.15) + liq + freight),
        decide (0 < (ttf_usd_of m.TTF.price - 1.0) -
          ((m.HH.price * 1.15) + liq + freight))) := by
  unfold arbSignal
  rw [if_pos ⟨h1, h2⟩]

theorem arbSignal_eq_some (freight liq : ℚ) (m : MarketData) (s : ℚ) (b : Bool)
    (h : arbSignal freight liq m = some (s, b)) :
    0 < m.HH.price ∧ 0 < m.TTF.price ∧
    s = (ttf_usd_of m.TTF.price - 1.0) - ((m.HH.price * 1.15) + liq + freight) ∧
    b = decide (0 < s) := by
  unfold arbSignal at h
  by_cases hg : 0 < m.HH.price ∧ 0 < m.TTF.price
  · rw [if_pos hg] at h
    obtain ⟨hs, hb⟩ := Prod.mk.injEq .. ▸ Option.some.inj h
    exact ⟨hg.1, hg.2, hs.symm, by rw [← hs, ← hb]⟩
  · rw [if_neg hg] at h
    exact absurd h (by simp)

/-! ### Claim theorems -/

/-- Claim C1: for every positively priced origin (Henry Hub) and
destination (TTF) quote, the module-level computation produces exactly
the spec's pipeline — normalized = (raw * 1.05) / 3.412, origin_cost =
hh * 1.15 + liq + freight, destination_net = normalized - 1.0,
net_spread = destination_net - origin_cost — and at Scenario A
(hh = 2.80, raw = 30.00, freight = 0.8, liq = 3.0) the spread is within
0.01 of 1.21 and the signal is open. -/
theorem C1_arbitrage_matches_spec :
    (∀ (freight liq : ℚ) (m : MarketData), 0 < m.HH.price → 0 < m.TTF.price →
        arbSignal freight liq m =
          some (spec_spread m.HH.price m.TTF.price liq freight,
            decide (0 < spec_spread m.HH.price m.TTF.price liq freight))) ∧
    (∃ s : ℚ, arbSignal 0.8 3.0
        ⟨⟨2.80, 0, true, none⟩, ⟨30.00, 0, true, none⟩, invalidQuote, invalidQuote⟩ =
          some (s, true) ∧ |s - 1.21| < 1 / 100) := by
  constructor
  · intro freight liq m h1 h2
    rw [arbSignal_of_pos freight liq m h1 h2]
    have hs : (ttf_usd_of m.TTF.price - 1.0) - ((m.HH.price * 1.15) + liq + freight)
        = spec_spread m.HH.price m.TTF.price liq freight := by
      unfold spec_spread spec_net_spread spec_destination_net spec_normalized
        spec_origin_cost ttf_usd_of
      ring
    rw [hs]
  · refine ⟨51697 / 42650, ?_, ?_⟩
    · norm_num [arbSignal, ttf_usd_of]
    · rw [abs_of_pos (by norm_num)]
      norm_num

/-- Witness for C1: the general equation instantiated at Scenario A's
quotes and costs, both positivity hypotheses discharged. -/
theorem C1_arbitrage_matches_spec_witness :
    arbSignal 0.8 3.0
        ⟨⟨2.80, 0, true, none⟩, ⟨30.00, 0, true, none⟩, invalidQuote, invalidQuote⟩ =
      some (spec_spread 2.80 30.00 3.0 0.8,
        decide (0 < spec_spread 2.80 30.00 3.0 0.8)) :=
  C1_arbitrage_matches_spec.1 0.8 3.0
    ⟨⟨2.80, 0, true, none⟩, ⟨30.00, 0, true, none⟩, invalidQuote, invalidQuote⟩
    (by norm_num) (by norm_num)

/-- Claim C2: whenever the arbitrage block emits a signal, the signal is
open exactly when the net spread is strictly positive; a spread of
exactly zero is classified closed. -/
theorem C2_open_iff_spread_pos (freight liq : ℚ) (m : MarketData)
    (s : ℚ) (b : Bool) (h : arbSignal freight liq m = some (s, b)) :
    (b = true ↔ 0 < s) ∧ (s = 0 → b = false) := by
  obtain ⟨-, -, -, hb⟩ := arbSignal_eq_some freight liq m s b h
  subst hb
  refine ⟨by simp, ?_⟩
  intro hs
  subst hs
  simp

/-- Witness for C2: at Scenario A's inputs the signal is `some` with a
positive spread, and the equivalence holds there. -/
theorem C2_open_iff_spread_pos_witness :
    ((true : Bool) = true ↔ (0 : ℚ) < 51697 / 42650) ∧
    ((51697 / 42650 : ℚ) = 0 → (true : Bool) = false) :=
  C2_open_iff_spread_pos 0.8 3.0
    ⟨⟨2.80, 0, true, none⟩, ⟨30.00, 0, true, none⟩, invalidQuote, invalidQuote⟩
    (51697 / 42650) true (by norm_num [arbSignal, ttf_usd_of])

/-- Claim C4: with the destination price, freight and liquefaction cost
held fixed, the net spread is strictly decreasing in the origin price:
a strictly larger Henry Hub price yields a strictly smaller spread. -/
theorem C4_spread_strictly_decreasing (freight liq : ℚ) (m m' : MarketData)
    (s s' : ℚ) (b b' : Bool)
    (h : arbSignal freight liq m = some (s, b))
    (h' : arbSignal freight liq m' = some (s', b'))
    (httf : m.TTF.price = m'.TTF.price)
    (hlt : m.HH.price < m'.HH.price) : s' < s := by
  obtain ⟨-, -, hs, -⟩ := arbSignal_eq_some freight liq m s b h
  obtain ⟨-, -, hs', -⟩ := arbSignal_eq_some freight liq m' s' b' h'
  rw [hs, hs', ← httf]
  have hmul : m.HH.price * 1.15 < m'.HH.price * 1.15 :=
    mul_lt_mul_of_pos_right hlt (by norm_num)
  linarith

/-- Witness for C4: raising the Henry Hub price from 2.80 to 4.80 with
TTF fixed at 30.00 drops the spread from 51697/42650 to -23199/21325. -/
theorem C4_spread_strictly_decreasing_witness :
    (-23199 / 21325 : ℚ) < 51697 / 42650 :=
  C4_spread_strictly_decreasing 0.8 3.0
    ⟨⟨2.80, 0, true, none⟩, ⟨30.00, 0, true, none⟩, invalidQuote, invalidQuote⟩
    ⟨⟨4.80, 0, true, none⟩, ⟨30.00, 0, true, none⟩, invalidQuote, invalidQuote⟩
    (51697 / 42650) (-23199 / 21325) true false
    (by norm_num [arbSignal, ttf_usd_of])
    (by norm_num [arbSignal, ttf_usd_of])
    (by norm_num) (by norm_num)

/-- Claim C5: the unit normalization (multiply by 1.05, divide by 3.412)
composed with its inverse (multiply by 3.412, divide by 1.05) recovers
every raw destination price exactly over rational arithmetic, hence in
particular within 1e-9 relative tolerance. -/
theorem C5_unit_round_trip (raw : ℚ) :
    ttf_denormalize (ttf_usd_of raw) = raw ∧
    |ttf_denormalize (ttf_usd_of raw) - raw| ≤ 1e-9 * |raw| := by
  have key : ttf_denormalize (ttf_usd_of raw) = raw := by
    unfold ttf_denormalize ttf_usd_of
    norm_num
  refine ⟨key, ?_⟩
  rw [key, sub_self, abs_zero]
  positivity

/-- Claim C3: whenever the quote pair produced by `get_market_data` has
an invalid (or missing, hence invalid) Henry Hub or TTF entry, the
arbitrage block produces no numeric result at all: an invalid entry
always carries price 0, so the positivity guard rejects it and nothing
is substituted into the spread arithmetic. -/
theorem C3_invalid_quote_yields_no_signal (manual freight liq : ℚ)
    (o : FetchOutcomes)
    (h : (get_market_data manual o).HH.valid = false ∨
         (get_market_data manual o).TTF.valid = false) :
    arbSignal freight liq (get_market_data manual o) = none := by
  unfold arbSignal
  rw [if_neg]
  rintro ⟨hHH, hTTF⟩
  rcases h with h | h
  · rw [get_market_data_HH] at h hHH
    rw [fetchQuote_of_valid_false _ h] at hHH
    exact absurd hHH (by norm_num [invalidQuote])
  · rw [get_market_data_TTF] at h hTTF
    by_cases hc : ((fetchQuote o.TTF).valid = false ∨
        (fetchQuote o.TTF).price < 1) ∧ 0 < manual
    · rw [if_pos hc] at h
      exact absurd h (by simp [manualQuote])
    · rw [if_neg hc] at h hTTF
      rw [fetchQuote_of_valid_false _ h] at hTTF
      exact absurd hTTF (by norm_num [invalidQuote])

/-- Witness for C3: a cycle where the Henry Hub fetch succeeds but the
TTF fetch raises (and no manual value is set) yields no signal. -/
theorem C3_invalid_quote_yields_no_signal_witness :
    arbSignal 0.8 3.0 (get_market_data 0 ⟨.hist [2, 3], .exn, .exn, .exn⟩) = none :=
  C3_invalid_quote_yields_no_signal 0 0.8 3.0 ⟨.hist [2, 3], .exn, .exn, .exn⟩
    (Or.inr (by simp [get_market_data, fetchQuote, invalidQuote, manualQuote]))

/-- Claim C6: the EIA year-over-year comparator rejects any history of
fewer than 53 entries with the "Not enough history" failure, and with
53 or more entries (and a nonzero prior-year value, without which the
division fails, cf. C7) it compares the newest entry `d[0]` against the
entry 52 periods back, `d[52]`. -/
theorem C6_history_guard (key : String) (d : List ℚ) (hk : key ≠ "") :
    (d.length < 53 →
      get_eia_storage_analysis key d = .error "Not enough history") ∧
    (∀ h53 : 53 ≤ d.length, d.get ⟨52, by omega⟩ ≠ 0 →
      get_eia_storage_analysis key d = .ok
        { val := d.get ⟨0, by omega⟩,
          chg := d.get ⟨0, by omega⟩ - d.get ⟨1, by omega⟩,
          yoy_diff := d.get ⟨0, by omega⟩ - d.get ⟨52, by omega⟩,
          yoy_pct := ((d.get ⟨0, by omega⟩ - d.get ⟨52, by omega⟩) /
            d.get ⟨52, by omega⟩) * 100,
          last_year_val := d.get ⟨52, by omega⟩ }) := by
  constructor
  · intro hlt
    simp only [get_eia_storage_analysis]
    rw [if_neg hk, dif_pos hlt]
  · intro h53 hz
    simp only [get_eia_storage_analysis]
    rw [if_neg hk, dif_neg (not_lt.mpr h53), if_neg hz]

/-- Witness for C6: a 53-entry history of constant value 4 passes the
guard and produces the comparison of `d[0]` against `d[52]`: diff 0,
percent 0. -/
theorem C6_history_guard_witness :
    get_eia_storage_analysis "k" (List.replicate 53 4) =
      .ok ⟨4, 0, 0, 0, 4⟩ := by
  have h := (C6_history_guard "k" (List.replicate 53 (4 : ℚ))
    (by decide)).2 (by simp)
    (by simp only [List.get_eq_getElem, List.getElem_replicate]; norm_num)
  rw [h]
  simp only [List.get_eq_getElem, List.getElem_replicate]
  norm_num

/-- Claim C7: a zero prior-year storage value makes the percentage
computation fail with the reported division-by-zero error (the Python
`ZeroDivisionError` caught and returned as a message), never a numeric
result. -/
theorem C7_divzero_guard (key : String) (d : List ℚ) (hk : key ≠ "")
    (h53 : 53 ≤ d.length) (hz : d.get ⟨52, by omega⟩ = 0) :
    get_eia_storage_analysis key d = .error "float division by zero" := by
  simp only [get_eia_storage_analysis]
  rw [if_neg hk, dif_neg (not_lt.mpr h53), if_pos hz]

/-- Witness for C7: a 53-entry history whose year-ago entry is 0 yields
the division-by-zero error. -/
theorem C7_divzero_guard_witness :
    get_eia_storage_analysis "k" (10 :: List.replicate 52 0) =
      .error "float division by zero" :=
  C7_divzero_guard "k" (10 :: List.replicate 52 0) (by decide) (by simp)
    (by decide)

/-- Claim C8: computations are isolated — the JKM and Brent fetch
outcomes never influence the Henry Hub quote, the TTF quote, or the
arbitrage result, and whenever both Henry Hub and TTF quotes carry
positive prices the spread is computed regardless of other failures. -/
theorem C8_failure_isolation (manual freight liq : ℚ) (o o' : FetchOutcomes)
    (hHH : o.HH = o'.HH) (hTTF : o.TTF = o'.TTF) :
    (get_market_data manual o).HH = (get_market_data manual o').HH ∧
    (get_market_data manual o).TTF = (get_market_data manual o').TTF ∧
    arbSignal freight liq (get_market_data manual o) =
      arbSignal freight liq (get_market_data manual o') ∧
    (0 < (get_market_data manual o).HH.price →
      0 < (get_market_data manual o).TTF.price →
      ∃ s b, arbSignal freight liq (get_market_data manual o) = some (s, b)) := by
  have h1 : (get_market_data manual o).HH = (get_market_data manual o').HH := by
    rw [get_market_data_HH, get_market_data_HH, hHH]
  have h2 : (get_market_data manual o).TTF = (get_market_data manual o').TTF := by
    rw [get_market_data_TTF, get_market_data_TTF, hTTF]
  have h3 : arbSignal freight liq (get_market_data manual o) =
      arbSignal freight liq (get_market_data manual o') := by
    unfold arbSignal
    rw [h1, h2]
  refine ⟨h1, h2, h3, ?_⟩
  intro p1 p2
  exact ⟨_, _, arbSignal_of_pos freight liq _ p1 p2⟩

/-- Witness for C8: with Henry Hub and TTF fetched identically, one
cycle with a failed JKM fetch and one with a succeeding JKM fetch agree
on the Henry Hub quote, the TTF quote and the arbitrage result, and the
spread is still produced. -/
theorem C8_failure_isolation_witness :
    (get_market_data 0 ⟨.hist [2, 3], .hist [20, 30], .exn, .exn⟩).HH =
      (get_market_data 0 ⟨.hist [2, 3], .hist [20, 30], .hist [5, 6], .exn⟩).HH ∧
    (get_market_data 0 ⟨.hist [2, 3], .hist [20, 30], .exn, .exn⟩).TTF =
      (get_market_data 0 ⟨.hist [2, 3], .hist [20, 30], .hist [5, 6], .exn⟩).TTF ∧
    arbSignal 0.8 3.0 (get_market_data 0 ⟨.hist [2, 3], .hist [20, 30], .exn, .exn⟩) =
      arbSignal 0.8 3.0
        (get_market_data 0 ⟨.hist [2, 3], .hist [20, 30], .hist [5, 6], .exn⟩) ∧
    (0 < (get_market_data 0 ⟨.hist [2, 3], .hist [20, 30], .exn, .exn⟩).HH.price →
      0 < (get_market_data 0 ⟨.hist [2, 3], .hist [20, 30], .exn, .exn⟩).TTF.price →
      ∃ s b, arbSignal 0.8 3.0
        (get_market_data 0 ⟨.hist [2, 3], .hist [20, 30], .exn, .exn⟩) = some (s, b)) :=
  C8_failure_isolation 0 0.8 3.0
    ⟨.hist [2, 3], .hist [20, 30], .exn, .exn⟩
    ⟨.hist [2, 3], .hist [20, 30], .hist [5, 6], .exn⟩ rfl rfl

/-- Claim C9: the manual TTF override fires exactly when the fetched
TTF quote is invalid or priced below 1 and the manual value is strictly
positive; it then substitutes the quote
`{price := manual, change := 0, valid := true, source := "Manual"}`,
and otherwise the fetched quote passes through unchanged.  In
particular a fetched, valid TTF price strictly between 0 and 1 is
silently replaced (see the witness). -/
theorem C9_manual_override (manual : ℚ) (o : FetchOutcomes) :
    ((((fetchQuote o.TTF).valid = false ∨ (fetchQuote o.TTF).price < 1) ∧
        0 < manual) →
      (get_market_data manual o).TTF =
        { price := manual, change := 0, valid := true, src := some "Manual" }) ∧
    (¬(((fetchQuote o.TTF).valid = false ∨ (fetchQuote o.TTF).price < 1) ∧
        0 < manual) →
      (get_market_data manual o).TTF = fetchQuote o.TTF) := by
  constructor
  · intro hc
    rw [get_market_data_TTF, if_pos hc]
    rfl
  · intro hc
    rw [get_market_data_TTF, if_neg hc]

/-- Witness for C9: a successfully fetched, valid TTF quote priced at
1/2 ∈ (0, 1) is replaced by the manual value 20. -/
theorem C9_manual_override_witness :
    (get_market_data 20 ⟨.exn, .hist [1, 1/2], .exn, .exn⟩).TTF =
      { price := 20, change := 0, valid := true, src := some "Manual" } :=
  (C9_manual_override 20 ⟨.exn, .hist [1, 1/2], .exn, .exn⟩).1
    ⟨Or.inr (by norm_num [fetchQuote]), by norm_num⟩

/-- Counterexample to claim C10 as stated: with a positive manual TTF
value, a TTF fetch that raises an exception does NOT produce the record
`{price := 0, change := 0, valid := false}` — the manual override
substitutes a valid quote with the manual price instead. -/
theorem C10_counterexample :
    (FetchOutcome.exn).failed = true ∧
    (get_market_data 2 ⟨.exn, .exn, .exn, .exn⟩).TTF.valid = true ∧
    (get_market_data 2 ⟨.exn, .exn, .exn, .exn⟩).TTF.price = 2 := by
  refine ⟨rfl, ?_, ?_⟩ <;>
    simp [get_market_data, fetchQuote, invalidQuote, manualQuote]

/-- Claim C10 (amended): `get_market_data` is total and shape-stable —
every combination of fetch outcomes, exceptions and empty histories
included, yields a record with exactly the four keys HH, TTF, JKM,
Oil, each holding price, change and valid fields; independently for
each key, whenever that key's fetch fails the HH, JKM and Oil entries
are `{price := 0, change := 0, valid := false}`, and the failed TTF
entry is the same unless the manual TTF value is strictly positive, in
which case it is the manual override quote.  The other keys' outcomes,
failed or not, play no role in each conjunct. -/
theorem C10_shape_stability (manual : ℚ) (o : FetchOutcomes) :
    (o.HH.failed = true → (get_market_data manual o).HH = invalidQuote) ∧
    (o.JKM.failed = true → (get_market_data manual o).JKM = invalidQuote) ∧
    (o.Oil.failed = true → (get_market_data manual o).Oil = invalidQuote) ∧
    (o.TTF.failed = true → (get_market_data manual o).TTF =
      if 0 < manual then manualQuote manual else invalidQuote) := by
  refine ⟨?_, ?_, ?_, ?_⟩
  · intro h
    rw [get_market_data_HH]
    exact fetchQuote_of_failed _ h
  · intro h
    rw [get_market_data_JKM]
    exact fetchQuote_of_failed _ h
  · intro h
    rw [get_market_data_Oil]
    exact fetchQuote_of_failed _ h
  · intro h
    rw [get_market_data_TTF, fetchQuote_of_failed _ h]
    by_cases hm : 0 < manual
    · rw [if_pos ⟨Or.inl rfl, hm⟩, if_pos hm]
    · rw [if_neg (fun hc => hm hc.2), if_neg hm]

/-- Witness for C10 (amended): mixed outcomes with exactly one failing
fetch per cycle — a failed HH, JKM or Oil fetch yields the invalid
record while the other instruments succeed; a failed TTF fetch yields
the manual quote when the manual value is 2 and the invalid record
when it is 0. -/
theorem C10_shape_stability_witness :
    (get_market_data 2 ⟨.exn, .hist [20, 30], .hist [5, 6], .hist [7, 8]⟩).HH =
      invalidQuote ∧
    (get_market_data 2 ⟨.hist [2, 3], .hist [20, 30], .exn, .hist [7, 8]⟩).JKM =
      invalidQuote ∧
    (get_market_data 2 ⟨.hist [2, 3], .hist [20, 30], .hist [5, 6], .exn⟩).Oil =
      invalidQuote ∧
    (get_market_data 2 ⟨.hist [2, 3], .exn, .hist [5, 6], .hist [7, 8]⟩).TTF =
      (if (0 : ℚ) < 2 then manualQuote 2 else invalidQuote) ∧
    (get_market_data 0 ⟨.hist [2, 3], .exn, .hist [5, 6], .hist [7, 8]⟩).TTF =
      (if (0 : ℚ) < 0 then manualQuote 0 else invalidQuote) :=
  ⟨(C10_shape_stability 2 ⟨.exn, .hist [20, 30], .hist [5, 6], .hist [7, 8]⟩).1 rfl,
   (C10_shape_stability 2 ⟨.hist [2, 3], .hist [20, 30], .exn, .hist [7, 8]⟩).2.1 rfl,
   (C10_shape_stability 2 ⟨.hist [2, 3], .hist [20, 30], .hist [5, 6], .exn⟩).2.2.1 rfl,
   (C10_shape_stability 2 ⟨.hist [2, 3], .exn, .hist [5, 6], .hist [7, 8]⟩).2.2.2 rfl,
   (C10_shape_stability 0 ⟨.hist [2, 3], .exn, .hist [5, 6], .hist [7, 8]⟩).2.2.2 rfl⟩

end LNG
